import Mathlib

/-!
Shallow embedding of `src/hybris/properties/properties.c` (libhybris property
client).  Pure parsing helpers are modelled directly; the socket transport is
modelled by an explicit `Transport` record describing the outcome of each
system call of one exchange (one socket, one connect, one send, a stream of
recv results).  All definitions are translated from the C source; the few
constants that live in the repository's header (not under `src/`) are marked
`Modelled from the spec`.
-/

namespace HybrisProps

/-- Modelled from the spec: the header `hybris/properties/properties.h` is not
under `src/`.  It fixes the name buffer size N1 (`PROP_NAME_MAX`) to 32 bytes. -/
def PROP_NAME_MAX : Nat := 32

/-- Modelled from the spec: the value buffer size N2 (`PROP_VALUE_MAX`),
92 bytes, from the same header. -/
def PROP_VALUE_MAX : Nat := 92

/-- Modelled from the spec: the command tags of the wire envelope; only their
distinctness matters here. -/
def PROP_MSG_SETPROP : Nat := 1

/-- Modelled from the spec: the GETPROP command tag. -/
def PROP_MSG_GETPROP : Nat := 2

/-- Modelled from the spec: the LISTPROP command tag. -/
def PROP_MSG_LISTPROP : Nat := 3

/-- `sizeof(prop_msg_t)`: a 4-byte command tag plus the two fixed buffers.
The exact number is irrelevant to every claim; only its being a fixed nonzero
constant is used. -/
def prop_msg_size : Nat := 4 + PROP_NAME_MAX + PROP_VALUE_MAX

/-- The wire envelope `prop_msg_t`: command tag plus the logical contents of
the `name` and `value` byte buffers (both NUL-terminated in C; modelled as the
strings they hold). -/
structure PropMsg where
  cmd : Nat
  name : String
  value : String
deriving Repr, DecidableEq

/-- Outcome of one attempt of a system call, as far as the code observes it:
success, failure with `errno == EINTR` (interrupted by a signal), or failure
with any other `errno`. -/
inductive SysRes where
  | ok : SysRes
  | eintr : SysRes
  | err : SysRes
deriving Repr, DecidableEq

/-- The `int` value a failing/succeeding `connect` attempt returns:
0 on success, -1 on any failure. -/
def connectRet : SysRes → Int
  | SysRes.ok => 0
  | SysRes.eintr => -1
  | SysRes.err => -1

/-- glibc `TEMP_FAILURE_RETRY(expression)`:
`do result = (expression); while (result == -1 && errno == EINTR); result`.
`f a` is the value of the wrapped expression when the underlying system call's
attempt has outcome `a`; `errno == EINTR` holds exactly for `SysRes.eintr`.
The list is the sequence of outcomes successive attempts would have (empty
list: unreachable for a real system call, mapped to -1). -/
def temp_failure_retry (f : SysRes → Int) : List SysRes → Int
  | [] => -1
  | [a] => f a
  | a :: rest =>
    if f a = -1 ∧ a = SysRes.eintr then temp_failure_retry f rest else f a

/-- The connect phase exactly as `send_prop_msg` writes it:
`TEMP_FAILURE_RETRY(connect(s, &addr.addr_g, alen) < 0)`.  The wrapped
expression is the comparison `connect(...) < 0`, whose value is 0 or 1 and
never -1, so the macro never loops: only the first attempt is consulted.
`true` means the `if` is taken, i.e. the phase is treated as failed. -/
def connect_failed (attempts : List SysRes) : Bool :=
  temp_failure_retry (fun a => if connectRet a < 0 then 1 else 0) attempts ≠ 0

/-- Modelled from the spec: "Interrupted system calls are transparently
retried"; the retry macro applied to the `connect` call itself (the intended
usage), so that an `EINTR` attempt is retried instead of ending the phase. -/
def connect_retried_failed (attempts : List SysRes) : Bool :=
  temp_failure_retry connectRet attempts < 0

/-- Environment of one `send_prop_msg` call: outcome of `socket(2)`, the
outcome sequence of `connect(2)` attempts, the value of the (retried)
`send(2)`, the successive `recv(2)` results with positive byte count
(byte count and the payload written into the caller's buffer), and the
final `recv` result that ends the loop (0 = orderly close, negative =
error; a positive value would be a further reply, so well-formed
environments have `finalRecv ≤ 0`). -/
structure Transport where
  socketOk : Bool
  connectAttempts : List SysRes
  sendResult : Int
  replies : List (Nat × PropMsg)
  finalRecv : Int

/-- How the `while ((r = recv(...)) > 0)` loop of `send_prop_msg` ends:
either some reply's byte count differs from `sizeof(prop_msg_t)` (close and
return -1 from inside the loop), or all listed replies are consumed. -/
inductive LoopExit where
  | malformed : List (String × String) → LoopExit
  | done : Bool → List (String × String) → PropMsg → LoopExit
deriving Repr, DecidableEq

/-- The receive loop of `send_prop_msg`, lines 169-181.  `cb` records whether
a non-null `propfn` was passed; `patched` is the `patched_init` flag; `m` is
the current content of the caller's `msg` buffer (overwritten by every recv);
`acc` accumulates the callback invocations made so far. -/
def recvLoop (cb : Bool) : List (Nat × PropMsg) → Bool → PropMsg →
    List (String × String) → LoopExit
  | [], patched, m, acc => LoopExit.done patched acc m
  | (r, rm) :: rest, patched, m, acc =>
    if r ≠ prop_msg_size then
      -- close(s); return result;  (the buffer now holds a partial copy of
      -- the offending reply; it is never read on this path)
      LoopExit.malformed acc
    else
      recvLoop cb rest true rm
        (acc ++ (if cb then [(rm.name, rm.value)] else []))

/-- The content of the `msg` buffer after the loop: the last reply's payload,
or the original message when no reply arrived. -/
def lastPayload (m : PropMsg) : List (Nat × PropMsg) → PropMsg
  | [] => m
  | x :: rest => lastPayload x.2 rest

/-- Observables of one `send_prop_msg` call: the returned `result`, the
callback invocations, how many times `close(2)` ran, whether a socket
descriptor was ever created, and the final content of the caller's `msg`
buffer. -/
structure ExchangeResult where
  result : Int
  calls : List (String × String)
  closes : Nat
  opened : Bool
  finalMsg : PropMsg
deriving Repr, DecidableEq

/-- `send_prop_msg` (lines 128-192), translated clause by clause:
socket creation failure returns -1 with nothing to close; a failed connect
phase closes once and returns -1; a send that did not transfer the whole
envelope skips the receive block and falls through to the final close; the
receive loop either aborts on a wrong-sized reply (close inside the loop,
return -1) or runs to completion, after which `result` becomes 0 exactly
when the last recv was non-negative and (`patched_init` was set or the
`cmd` field of the buffer - the original command if no reply overwrote
it - equals `PROP_MSG_SETPROP`). -/
def send_prop_msg (t : Transport) (msg : PropMsg) (cb : Bool) : ExchangeResult :=
  if t.socketOk = false then
    { result := -1, calls := [], closes := 0, opened := false, finalMsg := msg }
  else if connect_failed t.connectAttempts then
    { result := -1, calls := [], closes := 1, opened := true, finalMsg := msg }
  else if t.sendResult ≠ (prop_msg_size : Int) then
    { result := -1, calls := [], closes := 1, opened := true, finalMsg := msg }
  else
    match recvLoop cb t.replies false msg [] with
    | LoopExit.malformed calls =>
      { result := -1, calls := calls, closes := 1, opened := true, finalMsg := msg }
    | LoopExit.done patched calls m =>
      { result :=
          if 0 ≤ t.finalRecv ∧ (patched = true ∨ m.cmd = PROP_MSG_SETPROP)
          then 0 else -1,
        calls := calls, closes := 1, opened := true, finalMsg := m }

/-! ### Static source resolvers (lines 43-125)

C strings are modelled through their character lists (`String.data`), and the
string surgery done in place by `strchr`/`strtok`/`snprintf` is modelled by
structural recursion over those lists. -/

/-- Lines 53-56 of `find_key`: the first `'\x0d'` found by `strchr` is
overwritten with NUL, then the first `'\n'` still reachable is; the visible
line is therefore the prefix before the first CR or LF. -/
def chopData (l : List Char) : List Char :=
  l.takeWhile (fun c => c != '\r' && c != '\n')

/-- Splitting a C string at every occurrence of a delimiter character
(the backbone of both `strtok` and the manual space-splitting loop of
`find_key_kernel_cmdline`); empty segments are kept. -/
def splitChar (c : Char) : List Char → List (List Char)
  | [] => [[]]
  | a :: rest =>
    if a = c then [] :: splitChar c rest
    else
      match splitChar c rest with
      | [] => [[a]]
      | t :: ts => (a :: t) :: ts

/-- `strtok(buf, "=")` token stream: maximal runs of non-`'='` characters,
leading/consecutive delimiters skipped (empty segments dropped).  The first
call returns the head, each `strtok(NULL, "=")` the next element. -/
def strtokEq (s : String) : List String :=
  ((splitChar '=' s.data).filter (fun t => t ≠ [])).map (fun t => (⟨t⟩ : String))

/-- `strchr(s, '=')` followed by `*value++ = 0`: the part before the first
`'='` and the part after it; `none` when the character does not occur. -/
def breakEq : List Char → Option (List Char × List Char)
  | [] => none
  | a :: rest =>
    if a = '=' then some ([], rest)
    else
      match breakEq rest with
      | none => none
      | some p => some (a :: p.1, p.2)

/-- The per-line body of `find_key`'s `while (fgets(...))` loop (lines 52-71):
chop at CR/LF, `mkey = strtok(buf, "=")`, `value = strtok(NULL, "=")`, skip
the line when either token is missing (`continue`), return `strdup(value)`
on an exact key match. -/
def lineLookup (key : String) (line : String) : Option String :=
  match strtokEq (⟨chopData line.data⟩ : String) with
  | mkey :: value :: _ => if key = mkey then some value else none
  | _ => none

/-- `find_key`'s loop over the lines `fgets` yields: first line whose body
produces a value wins, a `continue` moves to the next line. -/
def find_key_loop (key : String) : List String → Option String
  | [] => none
  | line :: rest =>
    match lineLookup key line with
    | some v => some v
    | none => find_key_loop key rest

/-- `find_key` (lines 43-75).  The file is the sequence of lines `fgets`
yields, `none` when `fopen` fails. -/
def find_key (file : Option (List String)) (key : String) : Option String :=
  match file with
  | none => none
  | some lines => find_key_loop key lines

/-- Lines 87-93 of `find_key_kernel_cmdline`: at most 1023 bytes are read and
a single trailing newline (the last byte read) is dropped. -/
def stripTrailingNl (l : List Char) : List Char :=
  if l.getLast? = some '\n' then l.dropLast else l

/-- The body of `find_key_kernel_cmdline`'s token loop (lines 101-122), one
token per iteration: `value = strchr(name, '=')` with `name_len` taken
before the cut (so `name_len` is the whole token's length), `continue` on a
missing `'='` or an empty token, then for a name whose first 12 bytes are
`androidboot.` and a token longer than 12 bytes build
`snprintf(prop, PROP_NAME_MAX, "ro.%s", name + 12)` - which truncates to
`PROP_NAME_MAX - 1` characters - and compare with the requested key. -/
def cmdline_token (key : String) (tok : String) : Option String :=
  let name_len := tok.data.length
  match breakEq tok.data with
  | none => none
  | some nv =>
    if name_len = 0 then none
    else if "androidboot.".data.isPrefixOf nv.1 ∧ 12 < name_len then
      if ("ro.".data ++ nv.1.drop 12).take (PROP_NAME_MAX - 1) = key.data then
        some (⟨nv.2⟩ : String)
      else none
    else none

/-- `find_key_kernel_cmdline`'s token loop: first token whose body produces
a value wins, a `continue` moves to the next token. -/
def cmdline_loop (key : String) : List String → Option String
  | [] => none
  | tok :: rest =>
    match cmdline_token key tok with
    | some v => some v
    | none => cmdline_loop key rest

/-- `find_key_kernel_cmdline` (lines 79-125).  `content` is the raw text of
the pseudo-file, `none` when `open` fails (the C then scans an empty buffer;
both give "not found").  The manual
`while (ptr && *ptr) { x = strchr(ptr, ' '); ... }` walk visits exactly the
`splitChar ' '` segments, except that a final empty segment (text ending in
a space) is not visited; such a segment has no `'='` and is skipped by the
loop body anyway. -/
def find_key_kernel_cmdline (content : Option String) (key : String) :
    Option String :=
  match content with
  | none => none
  | some raw =>
    cmdline_loop key
      ((splitChar ' ' (stripTrailingNl (raw.data.take 1023))).map
        (fun t => (⟨t⟩ : String)))

/-- What one token contributes as claim C8 words it: the name must begin with
`androidboot.`, and the candidate key is exactly `"ro."` followed by the rest
of the name, with no truncation. -/
def cmdline_token_claim (key : String) (tok : String) : Option String :=
  match breakEq tok.data with
  | none => none
  | some nv =>
    if nv.1 = [] then none
    else if "androidboot.".data.isPrefixOf nv.1 then
      if "ro.".data ++ nv.1.drop 12 = key.data then some (⟨nv.2⟩ : String)
      else none
    else none

/-- The kernel-cmdline resolver as claim C8 words it (same framing as the
code, candidate key formed without truncation). -/
def find_key_kernel_cmdline_spec (content : Option String) (key : String) :
    Option String :=
  match content with
  | none => none
  | some raw =>
    ((splitChar ' ' (stripTrailingNl (raw.data.take 1023))).map
        (fun t => (⟨t⟩ : String))).findSome? (cmdline_token_claim key)

/-! ### Public API (lines 194-293) -/

/-- Observables of `property_get_socket`: the returned error code, the final
content of the caller's `value` buffer (unchanged on the early-error return),
and whether `send_prop_msg` ran at all. -/
structure SocketGetResult where
  err : Int
  buf : String
  ioAttempted : Bool
deriving Repr, DecidableEq

/-- Lines 227-236 of `property_get_socket`: once the exchange part is over,
`msg.value` holds `mval`; when it is empty and a default was supplied the
default is length-checked (early -1 without touching the buffer when too
long) and copied into `msg.value`; finally `msg.value` is copied to the
caller's buffer and 0 returned. -/
def getFinish (mval : String) (default_value : Option String) (buf0 : String)
    (io : Bool) : SocketGetResult :=
  match default_value with
  | some d =>
    if mval.length = 0 then
      if PROP_VALUE_MAX ≤ d.length then
        { err := -1, buf := buf0, ioAttempted := io }
      else { err := 0, buf := d, ioAttempted := io }
    else { err := 0, buf := mval, ioAttempted := io }
  | none => { err := 0, buf := mval, ioAttempted := io }

/-- `property_get_socket` (lines 211-237): the request is zeroed and tagged
GETPROP; only a non-null key is copied in and sent (a negative exchange
result is returned at once, the buffer untouched); with a null key no
exchange happens and `msg.value` is still the empty string from `memset`. -/
def property_get_socket (key : Option String) (default_value : Option String)
    (t : Transport) (buf0 : String) : SocketGetResult :=
  match key with
  | some k =>
    let ex := send_prop_msg t
      { cmd := PROP_MSG_GETPROP, name := k, value := "" } false
    if ex.result < 0 then { err := ex.result, buf := buf0, ioAttempted := true }
    else getFinish ex.finalMsg.value default_value buf0 true
  | none => getFinish "" default_value buf0 false

/-- Line 243 of `property_get`: `(key) && (strlen(key) >= PROP_NAME_MAX)`. -/
def keyTooLong : Option String → Bool
  | some k => PROP_NAME_MAX ≤ k.length
  | none => false

/-- Observables of `property_get`: return value, final buffer content,
whether the transport was exercised, and whether the static fallback block
(lines 252-267) ran. -/
structure GetResult where
  ret : Int
  buf : String
  ioAttempted : Bool
  staticsConsulted : Bool
deriving Repr, DecidableEq

/-- `property_get` (lines 239-270).  `value0` is the initial content of the
caller's buffer; `buildProps` and `cmdline` are the two static sources.
Note the C total-miss branch is `value = '\0';` - an assignment to the local
pointer parameter, not to the buffer - so the buffer is left unchanged
there. -/
def property_get (key : Option String) (value0 : String)
    (default_value : Option String) (t : Transport)
    (buildProps : Option (List String)) (cmdline : Option String) : GetResult :=
  if keyTooLong key then
    { ret := -1, buf := value0, ioAttempted := false, staticsConsulted := false }
  else
    let s := property_get_socket key default_value t value0
    if s.err = 0 then
      { ret := (s.buf.length : Int), buf := s.buf,
        ioAttempted := s.ioAttempted, staticsConsulted := false }
    else
      let k := key.getD ""
      match find_key buildProps k with
      | some v =>
        { ret := (v.length : Int), buf := v,
          ioAttempted := s.ioAttempted, staticsConsulted := true }
      | none =>
        match find_key_kernel_cmdline cmdline k with
        | some v =>
          { ret := (v.length : Int), buf := v,
            ioAttempted := s.ioAttempted, staticsConsulted := true }
        | none =>
          match default_value with
          | some d =>
            { ret := (d.length : Int), buf := d,
              ioAttempted := s.ioAttempted, staticsConsulted := true }
          | none =>
            -- value = '\0';  (dead store to the pointer; buffer untouched)
            { ret := 0, buf := value0,
              ioAttempted := s.ioAttempted, staticsConsulted := true }

/-- `property_set` (lines 272-293).  Second component: whether
`send_prop_msg` (and hence any socket I/O) ran. -/
def property_set (key : Option String) (value : Option String)
    (t : Transport) : Int × Bool :=
  match key with
  | none => (-1, false)
  | some k =>
    let v := (value.getD "")
    if PROP_NAME_MAX ≤ k.length then (-1, false)
    else if PROP_VALUE_MAX ≤ v.length then (-1, false)
    else
      let ex := send_prop_msg t
        { cmd := PROP_MSG_SETPROP, name := k, value := v } false
      if ex.result < 0 then (ex.result, true) else (0, true)

/-- `property_list` (lines 194-209).  Second component: the callback
invocations, in order. -/
def property_list (t : Transport) : Int × List (String × String) :=
  let ex := send_prop_msg t
    { cmd := PROP_MSG_LISTPROP, name := "", value := "" } true
  if ex.result < 0 then (ex.result, ex.calls) else (0, ex.calls)

/-! ### Lemmas about the receive loop -/

theorem recvLoop_all_sized (cb : Bool) (rs : List (Nat × PropMsg)) (p : Bool)
    (m : PropMsg) (acc : List (String × String))
    (h : ∀ x ∈ rs, x.1 = prop_msg_size) :
    recvLoop cb rs p m acc =
      LoopExit.done (p || !rs.isEmpty)
        (acc ++ (if cb then rs.map (fun x => (x.2.name, x.2.value)) else []))
        (lastPayload m rs) := by
  induction rs generalizing p m acc with
  | nil => simp [recvLoop, lastPayload]
  | cons x rest ih =>
    have hx : x.1 = prop_msg_size := h x (List.mem_cons_self _ _)
    have hrest : ∀ y ∈ rest, y.1 = prop_msg_size :=
      fun y hy => h y (List.mem_cons_of_mem _ hy)
    obtain ⟨r, rm⟩ := x
    simp only at hx
    subst hx
    rw [show recvLoop cb ((prop_msg_size, rm) :: rest) p m acc =
        recvLoop cb rest true rm
          (acc ++ (if cb then [(rm.name, rm.value)] else [])) from by
      simp [recvLoop]]
    rw [ih true rm _ hrest]
    cases cb <;> simp [lastPayload, List.append_assoc]

theorem recvLoop_first_bad (cb : Bool) (good : List (Nat × PropMsg)) (r : Nat)
    (rm : PropMsg) (rest : List (Nat × PropMsg)) (p : Bool) (m : PropMsg)
    (acc : List (String × String))
    (hgood : ∀ x ∈ good, x.1 = prop_msg_size) (hr : r ≠ prop_msg_size) :
    recvLoop cb (good ++ (r, rm) :: rest) p m acc =
      LoopExit.malformed
        (acc ++ (if cb then good.map (fun x => (x.2.name, x.2.value)) else [])) := by
  induction good generalizing p m acc with
  | nil => simp [recvLoop, hr]
  | cons x gs ih =>
    have hx : x.1 = prop_msg_size := hgood x (List.mem_cons_self _ _)
    have hgs : ∀ y ∈ gs, y.1 = prop_msg_size :=
      fun y hy => hgood y (List.mem_cons_of_mem _ hy)
    obtain ⟨rx, rmx⟩ := x
    simp only at hx
    subst hx
    rw [show recvLoop cb (((prop_msg_size, rmx) :: gs) ++ (r, rm) :: rest) p m acc =
        recvLoop cb (gs ++ (r, rm) :: rest) true rmx
          (acc ++ (if cb then [(rmx.name, rmx.value)] else [])) from by
      simp [recvLoop]]
    rw [ih true rmx _ hgs]
    cases cb <;> simp [List.append_assoc]

/-! ### First-match characterisations of the two resolver loops -/

theorem findSome_cons {α β : Type} (f : α → Option β) (a : α) (l : List α) :
    (a :: l).findSome? f =
      match f a with
      | some b => some b
      | none => l.findSome? f := rfl

theorem find_key_loop_eq_findSome (key : String) (lines : List String) :
    find_key_loop key lines = lines.findSome? (lineLookup key) := by
  induction lines with
  | nil => rfl
  | cons l rest ih =>
    rw [findSome_cons,
      show find_key_loop key (l :: rest) =
        match lineLookup key l with
        | some v => some v
        | none => find_key_loop key rest from rfl]
    cases lineLookup key l with
    | none => exact ih
    | some v => rfl

theorem cmdline_loop_eq_findSome (key : String) (toks : List String) :
    cmdline_loop key toks = toks.findSome? (cmdline_token key) := by
  induction toks with
  | nil => rfl
  | cons tok rest ih =>
    rw [findSome_cons,
      show cmdline_loop key (tok :: rest) =
        match cmdline_token key tok with
        | some v => some v
        | none => cmdline_loop key rest from rfl]
    cases cmdline_token key tok with
    | none => exact ih
    | some v => rfl

/-! ### Claim theorems -/

/-- Claim C1: for every exchange in which the full request envelope was sent
(and every received reply was complete, so the receive loop runs to its end),
`send_prop_msg` reports success exactly when the final recv status is
non-negative (clean close) and either at least one reply was observed or the
original command was SETPROP; in particular a GET with zero replies fails and
a SET with zero replies succeeds on a clean close. -/
theorem C1_send_success_iff (t : Transport) (msg : PropMsg) (cb : Bool)
    (hs : t.socketOk = true)
    (hc : connect_failed t.connectAttempts = false)
    (hsend : t.sendResult = (prop_msg_size : Int))
    (hsizes : ∀ x ∈ t.replies, x.1 = prop_msg_size)
    (hfin : t.finalRecv ≤ 0) :
    (send_prop_msg t msg cb).result = 0 ↔
      (0 ≤ t.finalRecv ∧ (t.replies ≠ [] ∨ msg.cmd = PROP_MSG_SETPROP)) := by
  obtain ⟨sock, ca, sr, rs, fr⟩ := t
  simp only at hs hc hsend hsizes hfin ⊢
  subst hs hsend
  unfold send_prop_msg
  rw [if_neg (by simp), if_neg (by simp [hc]), if_neg (by simp)]
  rw [recvLoop_all_sized cb rs false msg [] hsizes]
  cases rs with
  | nil =>
    simp only [lastPayload, List.isEmpty_nil, Bool.not_true, Bool.or_false]
    split_ifs with h <;> simp_all
  | cons a as =>
    simp only [lastPayload, List.isEmpty_cons, Bool.not_false, Bool.or_true]
    split_ifs with h <;> simp_all

/-- Closed instance of C1: a SET exchange against a service that closes
cleanly with zero replies is reported as success. -/
theorem C1_send_success_iff_witness :
    (send_prop_msg
        { socketOk := true, connectAttempts := [SysRes.ok],
          sendResult := (prop_msg_size : Int), replies := [], finalRecv := 0 }
        { cmd := PROP_MSG_SETPROP, name := "k", value := "v" } false).result = 0 ↔
      (0 ≤ (Transport.mk true [SysRes.ok] (prop_msg_size : Int) [] 0).finalRecv ∧
        ((Transport.mk true [SysRes.ok] (prop_msg_size : Int) [] 0).replies ≠ [] ∨
          (PropMsg.mk PROP_MSG_SETPROP "k" "v").cmd = PROP_MSG_SETPROP)) :=
  C1_send_success_iff
    { socketOk := true, connectAttempts := [SysRes.ok],
      sendResult := (prop_msg_size : Int), replies := [], finalRecv := 0 }
    { cmd := PROP_MSG_SETPROP, name := "k", value := "v" } false
    rfl (by decide) rfl (by decide) (by decide)

/-- Claim C5: (i) if, after a fully sent request, some received reply has a
positive byte count different from the fixed envelope size, the exchange
returns a negative result, only the replies before the first wrong-sized one
produce callback invocations, and `close` runs exactly once; (ii) on every
exit path of `send_prop_msg`, `close` runs exactly once when a descriptor
was created and never otherwise (no double-close, no leak). -/
theorem C5_malformed_single_close :
    (∀ (t : Transport) (msg : PropMsg) (cb : Bool)
        (good : List (Nat × PropMsg)) (r : Nat) (rm : PropMsg)
        (rest : List (Nat × PropMsg)),
      t.socketOk = true → connect_failed t.connectAttempts = false →
      t.sendResult = (prop_msg_size : Int) →
      t.replies = good ++ (r, rm) :: rest →
      (∀ x ∈ good, x.1 = prop_msg_size) → 0 < r → r ≠ prop_msg_size →
      (send_prop_msg t msg cb).result < 0 ∧
      (send_prop_msg t msg cb).calls =
        (if cb then good.map (fun x => (x.2.name, x.2.value)) else []) ∧
      (send_prop_msg t msg cb).closes = 1) ∧
    (∀ (t : Transport) (msg : PropMsg) (cb : Bool),
      (send_prop_msg t msg cb).closes =
        if (send_prop_msg t msg cb).opened then 1 else 0) := by
  constructor
  · intro t msg cb good r rm rest hs hc hsend hrep hgood hrpos hrbad
    obtain ⟨sock, ca, sr, rs, fr⟩ := t
    simp only at hs hc hsend hrep hgood ⊢
    subst hs hsend hrep
    unfold send_prop_msg
    rw [if_neg (by simp), if_neg (by simp [hc]), if_neg (by simp)]
    rw [recvLoop_first_bad cb good r rm rest false msg [] hgood hrbad]
    exact ⟨by norm_num, by simp, rfl⟩
  · intro t msg cb
    unfold send_prop_msg
    split
    · rfl
    · split
      · rfl
      · split
        · rfl
        · split
          · rfl
          · rfl

/-- Closed instance of C5: one complete reply followed by a 5-byte reply
makes the exchange fail with a single close, after one callback invocation. -/
theorem C5_malformed_single_close_witness :
    (send_prop_msg
        { socketOk := true, connectAttempts := [SysRes.ok],
          sendResult := (prop_msg_size : Int),
          replies := [(prop_msg_size, { cmd := PROP_MSG_LISTPROP, name := "n", value := "w" }),
            (5, { cmd := PROP_MSG_LISTPROP, name := "m", value := "u" })],
          finalRecv := 0 }
        { cmd := PROP_MSG_LISTPROP, name := "", value := "" } true).result < 0 ∧
    (send_prop_msg
        { socketOk := true, connectAttempts := [SysRes.ok],
          sendResult := (prop_msg_size : Int),
          replies := [(prop_msg_size, { cmd := PROP_MSG_LISTPROP, name := "n", value := "w" }),
            (5, { cmd := PROP_MSG_LISTPROP, name := "m", value := "u" })],
          finalRecv := 0 }
        { cmd := PROP_MSG_LISTPROP, name := "", value := "" } true).calls =
      (if true then
        [(prop_msg_size, PropMsg.mk PROP_MSG_LISTPROP "n" "w")].map
          (fun x => (x.2.name, x.2.value))
      else []) ∧
    (send_prop_msg
        { socketOk := true, connectAttempts := [SysRes.ok],
          sendResult := (prop_msg_size : Int),
          replies := [(prop_msg_size, { cmd := PROP_MSG_LISTPROP, name := "n", value := "w" }),
            (5, { cmd := PROP_MSG_LISTPROP, name := "m", value := "u" })],
          finalRecv := 0 }
        { cmd := PROP_MSG_LISTPROP, name := "", value := "" } true).closes = 1 :=
  C5_malformed_single_close.1
    { socketOk := true, connectAttempts := [SysRes.ok],
      sendResult := (prop_msg_size : Int),
      replies := [(prop_msg_size, { cmd := PROP_MSG_LISTPROP, name := "n", value := "w" }),
        (5, { cmd := PROP_MSG_LISTPROP, name := "m", value := "u" })],
      finalRecv := 0 }
    { cmd := PROP_MSG_LISTPROP, name := "", value := "" } true
    [(prop_msg_size, { cmd := PROP_MSG_LISTPROP, name := "n", value := "w" })]
    5 { cmd := PROP_MSG_LISTPROP, name := "m", value := "u" } []
    rfl (by decide) rfl rfl (by decide) (by decide) (by decide)

/-- Transport in which the connection is established, the whole envelope is
sent, and the service closes cleanly after streaming zero replies. -/
def tListZero : Transport :=
  { socketOk := true, connectAttempts := [SysRes.ok],
    sendResult := (prop_msg_size : Int), replies := [], finalRecv := 0 }

/-- Counterexample to claim C2: against a service that streams zero entries
and closes cleanly, `property_list` does invoke the callback zero times, but
it does not report success. -/
theorem C2_counterexample :
    (property_list tListZero).2 = [] ∧ (property_list tListZero).1 ≠ 0 := by
  decide

/-- Claim C2 as amended: when the transport connects, the full request is
sent and the service closes after streaming zero reply envelopes, the
callback is invoked zero times and `property_list` returns -1 (failure):
with no reply the `patched_init` flag stays clear and a LISTPROP command is
not SETPROP, so the clean close is not counted as success. -/
theorem C2_list_zero_replies (t : Transport)
    (hs : t.socketOk = true)
    (hc : connect_failed t.connectAttempts = false)
    (hsend : t.sendResult = (prop_msg_size : Int))
    (hrep : t.replies = []) (hfin : t.finalRecv = 0) :
    property_list t = (-1, []) := by
  obtain ⟨sock, ca, sr, rs, fr⟩ := t
  simp only at hs hc hsend hrep hfin
  subst hs hsend hrep hfin
  have hres : send_prop_msg
      { socketOk := true, connectAttempts := ca,
        sendResult := (prop_msg_size : Int), replies := [], finalRecv := 0 }
      { cmd := PROP_MSG_LISTPROP, name := "", value := "" } true =
      { result := -1, calls := [], closes := 1, opened := true,
        finalMsg := { cmd := PROP_MSG_LISTPROP, name := "", value := "" } } := by
    unfold send_prop_msg
    rw [if_neg (by simp), if_neg (by simp [hc]), if_neg (by simp)]
    rw [recvLoop_all_sized true [] false _ [] (by simp)]
    simp [PROP_MSG_LISTPROP, PROP_MSG_SETPROP, lastPayload]
  unfold property_list
  rw [hres]
  norm_num

/-- Closed instance of the amended C2. -/
theorem C2_list_zero_replies_witness : property_list tListZero = (-1, []) :=
  C2_list_zero_replies tListZero rfl (by decide) rfl rfl rfl

/-- Transport whose connect attempt fails outright (service absent), so the
exchange fails and `property_get` falls back to the static sources. -/
def tConnRefused : Transport :=
  { socketOk := true, connectAttempts := [SysRes.err],
    sendResult := (prop_msg_size : Int), replies := [], finalRecv := 0 }

/-- Claim C3, evaluated at its failing input: with a valid key, a failing
transport, no static match and no default, `property_get` does return
success (0) through the static fallback block, but the `value = '\0';`
total-miss branch is a dead store to the local pointer, so the output buffer
keeps its prior content "x" instead of receiving the empty string. -/
theorem C3_total_miss_buffer_untouched :
    property_get (some "k") "x" none tConnRefused none none =
      { ret := 0, buf := "x", ioAttempted := true, staticsConsulted := true } := by
  decide

/-- Claim C9, evaluated at its failing input: a connect attempt interrupted
by a signal (`EINTR`), which a retry would turn into an established
connection, is reported by `send_prop_msg` as a transport failure (-1),
because `TEMP_FAILURE_RETRY` is applied to the comparison
`connect(...) < 0` - whose value is 0 or 1, never -1 - so the macro never
retries; the intended macro usage (`connect_retried_failed`) would not have
failed on this attempt sequence. -/
theorem C9_connect_eintr_not_retried :
    (send_prop_msg
        { socketOk := true, connectAttempts := [SysRes.eintr, SysRes.ok],
          sendResult := (prop_msg_size : Int),
          replies := [(prop_msg_size,
            { cmd := PROP_MSG_GETPROP, name := "k", value := "v" })],
          finalRecv := 0 }
        { cmd := PROP_MSG_GETPROP, name := "k", value := "" } false).result = -1 ∧
    connect_retried_failed [SysRes.eintr, SysRes.ok] = false := by
  decide

/-- Claim C10: with a null key and a non-null default shorter than
`PROP_VALUE_MAX`, `property_get_socket` skips the send entirely, so no
socket is opened, the default is copied into the buffer, and `property_get`
returns the default's length without consulting the static sources. -/
theorem C10_null_key_no_io (d buf0 : String) (t : Transport)
    (bp : Option (List String)) (cl : Option String)
    (hd : d.length < PROP_VALUE_MAX) :
    property_get none buf0 (some d) t bp cl =
      { ret := (d.length : Int), buf := d,
        ioAttempted := false, staticsConsulted := false } := by
  unfold property_get keyTooLong property_get_socket getFinish
  rw [if_neg (by simp)]
  simp only [String.length, List.length_nil]
  rw [if_pos trivial,
    if_neg (show ¬PROP_VALUE_MAX ≤ d.data.length from Nat.not_le.mpr hd)]
  norm_num

/-- Closed instance of C10. -/
theorem C10_null_key_no_io_witness :
    property_get none "b" (some "dflt") tConnRefused none none =
      { ret := ((String.length "dflt" : Nat) : Int), buf := "dflt",
        ioAttempted := false, staticsConsulted := false } :=
  C10_null_key_no_io "dflt" "b" tConnRefused none none (by decide)

/-- Claim C6: `property_set` fails with -1 before any socket I/O when the
key reaches `PROP_NAME_MAX` or the value reaches `PROP_VALUE_MAX`, a null
value is treated as the empty string, and `property_get` fails with -1
before any I/O whenever a key is present and reaches `PROP_NAME_MAX`
(the Bool component records whether any exchange was attempted). -/
theorem C6_length_checks_before_io :
    (∀ (k : String) (v : Option String) (t : Transport),
      PROP_NAME_MAX ≤ k.length → property_set (some k) v t = (-1, false)) ∧
    (∀ (k v : String) (t : Transport),
      PROP_VALUE_MAX ≤ v.length → property_set (some k) (some v) t = (-1, false)) ∧
    (∀ (k : String) (t : Transport),
      property_set (some k) none t = property_set (some k) (some "") t) ∧
    (∀ (k buf0 : String) (d : Option String) (t : Transport)
        (bp : Option (List String)) (cl : Option String),
      PROP_NAME_MAX ≤ k.length →
      property_get (some k) buf0 d t bp cl =
        { ret := -1, buf := buf0, ioAttempted := false,
          staticsConsulted := false }) := by
  refine ⟨?_, ?_, ?_, ?_⟩
  · intro k v t h
    simp [property_set, h]
  · intro k v t h
    by_cases hk : PROP_NAME_MAX ≤ k.length
    · simp [property_set, hk]
    · simp [property_set, hk, h]
  · intro k t
    rfl
  · intro k buf0 d t bp cl h
    simp [property_get, keyTooLong, h]

/-- Closed instance of C6 at a 32-character key and a 92-character value. -/
theorem C6_length_checks_before_io_witness :
    property_set (some (⟨List.replicate PROP_NAME_MAX 'k'⟩ : String)) (some "v")
        tListZero = (-1, false) ∧
    property_set (some "k") (some (⟨List.replicate PROP_VALUE_MAX 'v'⟩ : String))
        tListZero = (-1, false) ∧
    property_set (some "k") none tListZero =
      property_set (some "k") (some "") tListZero ∧
    property_get (some (⟨List.replicate PROP_NAME_MAX 'k'⟩ : String)) "b" none
        tListZero none none =
      { ret := -1, buf := "b", ioAttempted := false, staticsConsulted := false } :=
  ⟨C6_length_checks_before_io.1 _ (some "v") tListZero (by decide),
   C6_length_checks_before_io.2.1 "k" _ tListZero (by decide),
   C6_length_checks_before_io.2.2.1 "k" tListZero,
   C6_length_checks_before_io.2.2.2 _ "b" none tListZero none none (by decide)⟩

/-- Claim C7: with a valid key, a transport GET exchange that succeeds while
leaving an empty string in the reply's value buffer, and a non-null default
shorter than `PROP_VALUE_MAX`, the default is substituted inside the
successful-transport path: `property_get` returns the default's length with
the default in the buffer, and the static fallback block never runs. -/
theorem C7_default_inside_success_path (k d buf0 : String) (t : Transport)
    (bp : Option (List String)) (cl : Option String)
    (hk : k.length < PROP_NAME_MAX)
    (hres : (send_prop_msg t
        { cmd := PROP_MSG_GETPROP, name := k, value := "" } false).result = 0)
    (hval : (send_prop_msg t
        { cmd := PROP_MSG_GETPROP, name := k, value := "" }
          false).finalMsg.value = "")
    (hd : d.length < PROP_VALUE_MAX) :
    property_get (some k) buf0 (some d) t bp cl =
      { ret := (d.length : Int), buf := d,
        ioAttempted := true, staticsConsulted := false } := by
  have h1 : property_get_socket (some k) (some d) t buf0 =
      { err := 0, buf := d, ioAttempted := true } := by
    simp only [property_get_socket, getFinish]
    rw [hres, hval]
    rw [if_neg (by norm_num)]
    rw [if_pos (show String.length "" = 0 from rfl),
      if_neg (Nat.not_le.mpr hd)]
  simp only [property_get, keyTooLong]
  rw [if_neg (by simp only [decide_eq_true_eq]; omega), h1]
  norm_num

/-- Closed instance of C7: a patched server echoes one reply with an empty
value and closes cleanly; the supplied default "dflt" is substituted. -/
theorem C7_default_inside_success_path_witness :
    property_get (some "k") "b" (some "dflt")
        { socketOk := true, connectAttempts := [SysRes.ok],
          sendResult := (prop_msg_size : Int),
          replies := [(prop_msg_size,
            { cmd := PROP_MSG_GETPROP, name := "k", value := "" })],
          finalRecv := 0 }
        (some ["k=file"]) none =
      { ret := ((String.length "dflt" : Nat) : Int), buf := "dflt",
        ioAttempted := true, staticsConsulted := false } :=
  C7_default_inside_success_path "k" "dflt" "b"
    { socketOk := true, connectAttempts := [SysRes.ok],
      sendResult := (prop_msg_size : Int),
      replies := [(prop_msg_size,
        { cmd := PROP_MSG_GETPROP, name := "k", value := "" })],
      finalRecv := 0 }
    (some ["k=file"]) none (by decide) (by decide) (by decide) (by decide)

/-- Counterexample to claim C4: the line `k=a=b` does not resolve key `k` to
the value `a=b` (the `strtok` split yields `a`), and the line `k=` does not
resolve key `k` to the empty value (the missing second token makes the line
be skipped). -/
theorem C4_counterexample :
    find_key (some ["k=a=b"]) "k" ≠ some "a=b" ∧
    find_key (some ["k="]) "k" ≠ some "" := by
  decide

/-- Claim C4 as amended: `find_key` reads the file line by line, truncates
each line at the first CR or LF, and tokenizes it with `strtok` on `'='`
(maximal runs of non-`'='` characters, empty segments skipped); the first
token is the key and the second the value, so the value stops at the next
`'='`: `k=a=b` resolves `k` to `a`, and `k=`, having no value token, is
skipped rather than yielding the empty value.  The first matching line wins
(`List.findSome?` of the per-line lookup), not-found results when the file
cannot be opened or no line matches, and lines without `'='` are skipped
without failing. -/
theorem C4_find_key_first_match :
    (∀ key, find_key none key = none) ∧
    (∀ lines key,
      find_key (some lines) key = lines.findSome? (lineLookup key)) ∧
    find_key (some ["k=a=b"]) "k" = some "a" ∧
    find_key (some ["k="]) "k" = none ∧
    find_key (some ["ro.foo=bar\r\n", "malformed_line"]) "ro.foo" = some "bar" ∧
    find_key (some ["malformed_line"]) "nonexistent" = none :=
  ⟨fun _ => rfl, fun lines key => find_key_loop_eq_findSome key lines,
   by decide, by decide, by decide, by decide⟩

/-- Counterexample to claim C8: the candidate property key is built by
`snprintf` into a `PROP_NAME_MAX`-byte buffer and is therefore truncated to
31 characters.  For the cmdline token `androidboot.` + 29 × `a` + `=V`, the
claim's candidate `ro.` + 29 × `a` (32 characters) matches no 31-character
key, so the claim's algorithm returns not-found for the key
`ro.` + 28 × `a`; the code returns `V` for it. -/
theorem C8_counterexample :
    find_key_kernel_cmdline
        (some "androidboot.aaaaaaaaaaaaaaaaaaaaaaaaaaaaa=V")
        "ro.aaaaaaaaaaaaaaaaaaaaaaaaaaaa" = some "V" ∧
    find_key_kernel_cmdline_spec
        (some "androidboot.aaaaaaaaaaaaaaaaaaaaaaaaaaaaa=V")
        "ro.aaaaaaaaaaaaaaaaaaaaaaaaaaaa" = none := by
  decide

/-- Claim C8 as amended: as claimed - bounded 1023-byte read, single
trailing newline stripped, space tokenization, `androidboot.` prefix
required and replaced by `ro.`, first match wins (`List.findSome?` of the
per-token lookup), tokens without `'='` or empty skipped - except that the
candidate key is truncated to the first `PROP_NAME_MAX - 1` characters of
`ro.` + name-after-prefix by the `snprintf` buffer bound.  The claim's two
examples hold. -/
theorem C8_cmdline_first_match :
    (∀ key, find_key_kernel_cmdline none key = none) ∧
    (∀ raw key,
      find_key_kernel_cmdline (some raw) key =
        ((splitChar ' ' (stripTrailingNl (raw.data.take 1023))).map
          (fun t => (⟨t⟩ : String))).findSome? (cmdline_token key)) ∧
    find_key_kernel_cmdline
      (some "androidboot.serialno=ABC123 console=ttyS0") "ro.serialno" =
      some "ABC123" ∧
    find_key_kernel_cmdline
      (some "androidboot.serialno=ABC123 console=ttyS0") "ro.console" = none :=
  ⟨fun _ => rfl, fun raw key => cmdline_loop_eq_findSome key _,
   by decide, by decide⟩

end HybrisProps
